import Mathlib

set_option maxRecDepth 1000000

/-!
Verification of the A4 Markdown Writer (`app.py`): the layout-configuration
store, preset and template actions, and the document assembler that templates
the configuration and the escaped document text into a standalone HTML string.
All definitions below are shallow embeddings of the corresponding Python code.
-/

namespace A4

/-- The names of the entries of the `TEMPLATES` dict (the domain of the
template selectbox). -/
inductive TemplateName where
  | blank
  | lectureNotes
  | codeSnippets
  | formulaSheet
deriving DecidableEq

/-- The `TEMPLATES` dict of `app.py` (lines 29-93): the exact template texts,
with Python string escapes resolved. -/
def TEMPLATES : TemplateName → String
  | .blank => ""
  | .lectureNotes => "# Week X — Topic Title\n\n## Key Ideas\n- Concept 1\n- Concept 2\n\n## Definitions\n- **Term**: meaning here\n\n## Example\nLet $f(x)=x^2-x$. Then $$f\x27(x)=2x-1$$\n\n## Quick Derivation\n1. Start from ...\n2. Apply rule ...\n\n## Takeaways\n- Bullet 1\n- Bullet 2\n"
  | .codeSnippets => "# Handy Snippets\n\n### Python\n```python\nfrom math import sqrt\ndef mean(xs):\n    return sum(xs)/len(xs)\n```\n\n### Bash\n```bash\npython -m venv .venv && source .venv/bin/activate\npip install -r requirements.txt\n```\n\n### SQL\n```sql\nSELECT id, AVG(score) AS avg_score\nFROM results\nGROUP BY id;\n```\n"
  | .formulaSheet => "# Formula Sheet\n\n## Algebra\n$ (a+b)^2 = a^2 + 2ab + b^2 $\\\n$ (a-b)^2 = a^2 - 2ab + b^2 $\\\n$ a^2-b^2=(a-b)(a+b) $\n\n## Calculus\n$\\dfrac\x7bd\x7d\x7bdx\x7d x^n = nx^\x7bn-1\x7d$\\\n$\\int_0^1 x^2\\,dx = 1/3$\n\n## Trig\n$\\sin^2 x + \\cos^2 x = 1$\n"

/-- A preset: the sub-record of the session state that a preset button bulk-sets
(`PRESETS` values, `app.py` lines 23-27). -/
structure Preset where
  columns : Nat
  margin_mm : Nat
  gap_mm : Nat
  font_px : Nat
  show_guides : Bool
deriving DecidableEq

/-- `PRESETS["2-up"]` (`app.py` line 24). -/
def preset2up : Preset := { columns := 2, margin_mm := 12, gap_mm := 10, font_px := 11, show_guides := true }

/-- `PRESETS["3-up"]` (`app.py` line 25). -/
def preset3up : Preset := { columns := 3, margin_mm := 12, gap_mm := 8, font_px := 10, show_guides := true }

/-- `PRESETS["4-up"]` (`app.py` line 26). -/
def preset4up : Preset := { columns := 4, margin_mm := 10, gap_mm := 6, font_px := 10, show_guides := true }

/-- The `PRESETS` dict of `app.py` (lines 23-27) as a lookup by key. -/
def PRESETS (name : String) : Option Preset :=
  if name = "2-up" then some preset2up
  else if name = "3-up" then some preset3up
  else if name = "4-up" then some preset4up
  else none

/-- The session state of the app: the Layout Configuration (orientation,
columns, margin, gap, font, guide visibility), the selected template, and the
document text (`st.session_state` keys plus the widget values of `app.py`
lines 110-125, 154-162). -/
structure SessionState where
  orientation : String
  columns : Nat
  margin_mm : Nat
  gap_mm : Nat
  font_px : Nat
  show_guides : Bool
  selected_template : TemplateName
  md : String
deriving DecidableEq

/-- `st.session_state.update(PRESETS[name])` (`app.py` lines 100-108): bulk
overwrite of the five preset-controlled fields; all other state is untouched. -/
def applyPreset (p : Preset) (s : SessionState) : SessionState :=
  { s with columns := p.columns, margin_mm := p.margin_mm, gap_mm := p.gap_mm,
           font_px := p.font_px, show_guides := p.show_guides }

/-- The template-loading step of `app.py` lines 157-160:
`if load_replace: st.session_state.md = TEMPLATES[selected_template]`
`elif load_append: st.session_state.md += "" + TEMPLATES[selected_template]`. -/
def loadStep (load_replace load_append : Bool) (s : SessionState) : SessionState :=
  if load_replace then { s with md := TEMPLATES s.selected_template }
  else if load_append then { s with md := s.md ++ ("" ++ TEMPLATES s.selected_template) }
  else s

/-- Individual field update from the Columns slider (`app.py` line 111). -/
def setColumns (s : SessionState) (v : Nat) : SessionState := { s with columns := v }

/-- Individual field update from the margin slider (`app.py` line 112). -/
def setMargin (s : SessionState) (v : Nat) : SessionState := { s with margin_mm := v }

/-- Individual field update from the gap slider (`app.py` line 113). -/
def setGap (s : SessionState) (v : Nat) : SessionState := { s with gap_mm := v }

/-- Individual field update from the font slider (`app.py` line 114). -/
def setFont (s : SessionState) (v : Nat) : SessionState := { s with font_px := v }

/-- The Layout Configuration invariants of the spec: columns in [1,4],
margin in [5,25] mm, gap in [4,20] mm, font size in [9,16] px. -/
def ValidLayout (s : SessionState) : Prop :=
  1 ≤ s.columns ∧ s.columns ≤ 4 ∧
  5 ≤ s.margin_mm ∧ s.margin_mm ≤ 25 ∧
  4 ≤ s.gap_mm ∧ s.gap_mm ≤ 20 ∧
  9 ≤ s.font_px ∧ s.font_px ≤ 16

/-- `A4_W` (`app.py` line 171). -/
def A4_W : Nat := 210

/-- `A4_H` (`app.py` line 171). -/
def A4_H : Nat := 297

/-- `page_w = A4_W if orientation == "portrait" else A4_H` (`app.py` line 172). -/
def page_w (orientation : String) : Nat :=
  if orientation = "portrait" then A4_W else A4_H

/-- `page_h = A4_H if orientation == "portrait" else A4_W` (`app.py` line 173). -/
def page_h (orientation : String) : Nat :=
  if orientation = "portrait" then A4_H else A4_W

/-- A fixed sample session state used to instantiate hypotheses of the
universally quantified theorems at a concrete point. -/
def sampleState : SessionState :=
  { orientation := "portrait", columns := 2, margin_mm := 12, gap_mm := 8,
    font_px := 11, show_guides := true, selected_template := .lectureNotes, md := "" }

/-- The backtick character (U+0060), which delimits the generated JavaScript
template literal. -/
def bq : Char := Char.ofNat 96

/-- The opening-brace character (U+007B); `$` followed by it starts an
interpolation inside a JavaScript template literal. -/
def obrace : Char := Char.ofNat 123

/-- Python `str.replace` specialised to a single-character pattern: every
occurrence of `pat` is replaced by `rep`, left to right. -/
def replaceChar (pat : Char) (rep : List Char) : List Char → List Char
  | [] => []
  | c :: rest => (if c = pat then rep else [c]) ++ replaceChar pat rep rest

/-- The escaping step `md_js` of `app.py` lines 177-181:
`md.replace("\", r"\\\\").replace(backtick, r"\" + backtick).replace("$", r"\$")`
(each backslash becomes four backslashes, then each backtick and each dollar
sign gets a backslash prefix). -/
def md_js (md : String) : List Char :=
  replaceChar '$' ['\\', '$']
    (replaceChar bq ['\\', bq]
      (replaceChar '\\' ['\\', '\\', '\\', '\\'] md.data))

/-- The same escaping pipeline as `md_js`, on a raw character list (used to
reason about `md_js` by induction). -/
def escL (l : List Char) : List Char :=
  replaceChar '$' ['\\', '$']
    (replaceChar bq ['\\', bq]
      (replaceChar '\\' ['\\', '\\', '\\', '\\'] l))

/-- Scanner for the body of a JavaScript template literal: returns `true` iff
the text, placed between backticks, reaches its end without premature
termination — no unescaped backtick, no unescaped interpolation start, and no
trailing lone backslash (which would escape the closing backtick). -/
def templateScan : List Char → Bool
  | [] => true
  | [c] =>
    if c = '\\' then false
    else if c = bq then false
    else true
  | c :: d :: rest =>
    if c = '\\' then templateScan rest
    else if c = bq then false
    else if c = '$' then
      if d = obrace then false else templateScan (d :: rest)
    else templateScan (d :: rest)

/-- Scanner that consumes a JavaScript template-literal body up to the first
unescaped backtick and returns what follows it; `none` when the literal never
terminates cleanly (or an interpolation starts). -/
def templLitEnd : List Char → Option (List Char)
  | [] => none
  | [c] => if c = bq then some [] else none
  | c :: d :: rest =>
    if c = '\\' then templLitEnd rest
    else if c = bq then some (d :: rest)
    else if c = '$' then
      if d = obrace then none else templLitEnd (d :: rest)
    else templLitEnd (d :: rest)

/-- Decimal digit as a character. -/
def digitChar : Nat → Char
  | 0 => '0'
  | 1 => '1'
  | 2 => '2'
  | 3 => '3'
  | 4 => '4'
  | 5 => '5'
  | 6 => '6'
  | 7 => '7'
  | 8 => '8'
  | _ => '9'

/-- Decimal rendering, most significant digit first, with a fuel argument to
make the recursion structural. -/
def natToStrAux : Nat → Nat → List Char
  | 0, _ => []
  | fuel + 1, n =>
    if n < 10 then [digitChar n]
    else natToStrAux fuel (n / 10) ++ [digitChar (n % 10)]

/-- Decimal rendering of a natural number, as Python `str` formats an `int`
into the f-string. -/
def natToStr (n : Nat) : List Char := natToStrAux (n + 1) n

/-- Decimal-digit test on characters. -/
def isDigitC (c : Char) : Bool := 48 ≤ c.toNat && c.toNat ≤ 57

/-- Reads a leading run of decimal digits into an accumulator, returning the
value and the unread remainder. -/
def parseNatAux : List Char → Nat → Nat × List Char
  | [], acc => (acc, [])
  | c :: rest, acc =>
    if isDigitC c then parseNatAux rest (acc * 10 + (c.toNat - 48))
    else (acc, c :: rest)

/-- Holds when the list does not start with a decimal digit. -/
def headNotDigit : List Char → Bool
  | [] => true
  | c :: _ => !isDigitC c

/-- Strips an expected prefix, returning the remainder, or `none` when the
input does not start with that prefix. -/
def dropPre : List Char → List Char → Option (List Char)
  | [], s => some s
  | _ :: _, [] => none
  | p :: ps, c :: cs => if c = p then dropPre ps cs else none

/-- `rule_css` of `app.py` line 174:
`f"column-rule: \x7b'1px solid #ddd' if show_guides else 'none'\x7d;"`. -/
def rule_css (show_guides : Bool) : List Char :=
  ("column-rule: " ++ (if show_guides then "1px solid #ddd" else "none") ++ ";").data

/-- Literal segment of the `html_doc` f-string (`app.py` lines 183-199) from the
start up to the `--page-w-mm: ` interpolation point. -/
def hdS0 : String := "\n<!doctype html>\n<html>\n<head>\n  <meta charset=\"utf-8\" />\n  <meta name=\"viewport\" content=\"width=device-width, initial-scale=1\" />\n  <link rel=\"stylesheet\" href=\"https://cdnjs.cloudflare.com/ajax/libs/highlight.js/11.9.0/styles/github.min.css\"/>\n  <script src=\"https://cdnjs.cloudflare.com/ajax/libs/highlight.js/11.9.0/highlight.min.js\"></script>\n  <script src=\"https://cdn.jsdelivr.net/npm/dompurify@3.1.7/dist/purify.min.js\"></script>\n  <script src=\"https://cdn.jsdelivr.net/npm/marked/marked.min.js\"></script>\n  <script>\n    window.MathJax = \x7b tex: \x7b inlineMath: [[\x27$\x27,\x27$\x27], [\x27\\(\x27,\x27\\)\x27]] \x7d, svg: \x7bfontCache: \x27global\x27\x7d \x7d;\n  </script>\n  <script src=\"https://cdn.jsdelivr.net/npm/mathjax@3/es5/tex-svg.js\"></script>\n  <style>\n    :root \x7b\n      --page-w-mm: "

/-- Literal segment of the `html_doc` f-string between the page-width and
page-height values. -/
def hdS1 : String := "mm;\n      --page-h-mm: "

/-- Literal segment of the `html_doc` f-string between the page-height and
margin values. -/
def hdS2 : String := "mm;\n      --margin-mm: "

/-- Literal segment of the `html_doc` f-string between the margin and gap
values. -/
def hdS3 : String := "mm;\n      --gap-mm: "

/-- Literal segment of the `html_doc` f-string between the gap and font
values. -/
def hdS4 : String := "mm;\n      --font-px: "

/-- Literal segment of the `html_doc` f-string between the font and column
values. -/
def hdS5 : String := "px;\n      --cols: "

/-- Literal segment of the `html_doc` f-string between the column count and the
`@page` orientation. -/
def hdS6 : String := ";\n    \x7d\n    @page \x7b size: A4 "

/-- Literal segment of the `html_doc` f-string between the `@page` orientation
and the spliced `rule_css`. -/
def hdS7 : String := "; margin: var(--margin-mm); \x7d\n    html, body \x7b height: 100%; \x7d\n    body \x7b background: #f4f5f7; margin: 0; \x7d\n    .toolbar \x7b position: sticky; top: 0; background: #fff; border-bottom: 1px solid #e5e7eb; padding: 8px 12px; z-index: 10; font-family: system-ui, -apple-system, Segoe UI, Roboto, Helvetica, Arial; \x7d\n    .page-shell \x7b width: var(--page-w-mm); height: var(--page-h-mm); margin: 24px auto; background: #fff; box-shadow: 0 10px 25px rgba(0,0,0,.08); overflow: hidden; \x7d\n    .page-content \x7b box-sizing: border-box; padding: var(--margin-mm); font-size: var(--font-px); line-height: 1.45; column-count: var(--cols); column-gap: var(--gap-mm); "

/-- Literal segment of the `html_doc` f-string between `rule_css` and the
toolbar orientation. -/
def hdS8 : String := " font-family: system-ui, -apple-system, Segoe UI, Roboto, Helvetica, Arial; \x7d\n    .page-content h1, .page-content h2, .page-content h3 \x7b break-inside: avoid; \x7d\n    .page-content pre, .page-content code, .page-content img, .page-content table \x7b break-inside: avoid; max-width: 100%; \x7d\n    .page-content pre \x7b background: #f6f8fa; padding: 10px; border-radius: 6px; overflow: auto; \x7d\n    .page-content code \x7b font-family: ui-monospace, SFMono-Regular, Menlo, Consolas, monospace; \x7d\n    @media print \x7b body \x7b -webkit-print-color-adjust: exact; print-color-adjust: exact; background: #fff; \x7d .toolbar \x7b display: none; \x7d .page-shell \x7b box-shadow: none; margin: 0 auto; \x7d \x7d\n  </style>\n</head>\n<body>\n  <div class=\"toolbar\">A4 preview • "

/-- Literal segment of the `html_doc` f-string between the toolbar orientation
and the toolbar column count. -/
def hdS9 : String := " • "

/-- Literal segment of the `html_doc` f-string between the toolbar column count
and the opening backtick of `const raw = `. -/
def hdS10 : String := " column(s)</div>\n  <div class=\"page-shell\"><div id=\"content\" class=\"page-content\"></div></div>\n  <script>\n    const raw = "

/-- Literal segment of the `html_doc` f-string after the closing backtick of
the `raw` template literal, to the end of the document. -/
def hdS11 : String := ";\n    const html = DOMPurify.sanitize(marked.parse(raw));\n    const container = document.getElementById(\x27content\x27);\n    container.innerHTML = html;\n    document.querySelectorAll(\x27pre code\x27).forEach(el => window.hljs.highlightElement(el));\n    if (window.MathJax && window.MathJax.typeset) \x7b window.MathJax.typeset([container]); \x7d\n  </script>\n</body>\n</html>\n"

/-- The assembled document `html_doc` of `app.py` lines 183-232: the f-string
with `page_w`, `page_h`, `margin_mm`, `gap_mm`, `font_px`, `columns`,
`orientation`, `rule_css` and the escaped text `md_js` interpolated. -/
def htmlDoc (s : SessionState) : List Char :=
  hdS0.data ++ natToStr (page_w s.orientation)
  ++ hdS1.data ++ natToStr (page_h s.orientation)
  ++ hdS2.data ++ natToStr s.margin_mm
  ++ hdS3.data ++ natToStr s.gap_mm
  ++ hdS4.data ++ natToStr s.font_px
  ++ hdS5.data ++ natToStr s.columns
  ++ hdS6.data ++ s.orientation.data
  ++ hdS7.data ++ rule_css s.show_guides
  ++ hdS8.data ++ s.orientation.data
  ++ hdS9.data ++ natToStr s.columns
  ++ hdS10.data ++ (bq :: md_js s.md)
  ++ (bq :: hdS11.data)

/-- Extraction of the six CSS custom-property values back out of an assembled
document: strips the fixed skeleton segments and parses the decimal values of
`--page-w-mm`, `--page-h-mm`, `--margin-mm`, `--gap-mm`, `--font-px`, `--cols`
in order. -/
def readStyleVars (doc : List Char) : Option (Nat × Nat × Nat × Nat × Nat × Nat) :=
  match dropPre hdS0.data doc with
  | none => none
  | some r0 =>
    match parseNatAux r0 0 with
    | (pw, r0v) =>
      match dropPre hdS1.data r0v with
      | none => none
      | some r1 =>
        match parseNatAux r1 0 with
        | (ph, r1v) =>
          match dropPre hdS2.data r1v with
          | none => none
          | some r2 =>
            match parseNatAux r2 0 with
            | (m, r2v) =>
              match dropPre hdS3.data r2v with
              | none => none
              | some r3 =>
                match parseNatAux r3 0 with
                | (g, r3v) =>
                  match dropPre hdS4.data r3v with
                  | none => none
                  | some r4 =>
                    match parseNatAux r4 0 with
                    | (f, r4v) =>
                      match dropPre hdS5.data r4v with
                      | none => none
                      | some r5 =>
                        match parseNatAux r5 0 with
                        | (c, _) => some (pw, ph, m, g, f, c)

/-- Character of the standard base64 alphabet for a 6-bit value. -/
def b64char (n : Nat) : Char :=
  if n < 26 then Char.ofNat (65 + n)
  else if n < 52 then Char.ofNat (97 + (n - 26))
  else if n < 62 then Char.ofNat (48 + (n - 52))
  else if n = 62 then '+'
  else '/'

/-- Six-bit value of a base64 alphabet character (inverse of `b64char` on the
alphabet). -/
def b64val (c : Char) : Nat :=
  if 65 ≤ c.toNat ∧ c.toNat ≤ 90 then c.toNat - 65
  else if 97 ≤ c.toNat ∧ c.toNat ≤ 122 then c.toNat - 97 + 26
  else if 48 ≤ c.toNat ∧ c.toNat ≤ 57 then c.toNat - 48 + 52
  else if c = '+' then 62
  else 63

/-- Standard base64 encoding of a byte list (Python `base64.b64encode`):
three bytes become four alphabet characters, with `=` padding for a final
group of one or two bytes. -/
def b64e : List Nat → List Char
  | [] => []
  | [a] => [b64char (a / 4), b64char (a % 4 * 16), '=', '=']
  | [a, b] => [b64char (a / 4), b64char (a % 4 * 16 + b / 16), b64char (b % 16 * 4), '=']
  | a :: b :: c :: rest =>
    b64char (a / 4) :: b64char (a % 4 * 16 + b / 16)
      :: b64char (b % 16 * 4 + c / 64) :: b64char (c % 64) :: b64e rest

/-- Standard base64 decoding of a well-padded encoding (Python
`base64.b64decode` on valid input): four characters become three bytes, fewer
at a trailing `=`-padded group. -/
def b64d : List Char → List Nat
  | c1 :: c2 :: c3 :: c4 :: rest =>
    if c3 = '=' then [b64val c1 * 4 + b64val c2 / 16]
    else if c4 = '=' then
      [b64val c1 * 4 + b64val c2 / 16, b64val c2 % 16 * 16 + b64val c3 / 4]
    else
      (b64val c1 * 4 + b64val c2 / 16) :: (b64val c2 % 16 * 16 + b64val c3 / 4)
        :: (b64val c3 % 4 * 64 + b64val c4) :: b64d rest
  | _ => []

/-- UTF-8 encoding of a single character (the byte sequence Python
`str.encode("utf-8")` produces for it). -/
def utf8EncodeChar (ch : Char) : List Nat :=
  if ch.toNat < 128 then [ch.toNat]
  else if ch.toNat < 2048 then [192 + ch.toNat / 64, 128 + ch.toNat % 64]
  else if ch.toNat < 65536 then
    [224 + ch.toNat / 4096, 128 + ch.toNat / 64 % 64, 128 + ch.toNat % 64]
  else
    [240 + ch.toNat / 262144, 128 + ch.toNat / 4096 % 64,
     128 + ch.toNat / 64 % 64, 128 + ch.toNat % 64]

/-- UTF-8 encoding of a character list (`str.encode("utf-8")`). -/
def utf8Bytes : List Char → List Nat
  | [] => []
  | c :: cs => utf8EncodeChar c ++ utf8Bytes cs

/-- The download link target of `app.py` lines 241-242:
`f"data:text/html;base64,\x7bbase64.b64encode(html_doc.encode()).decode()\x7d"`. -/
def downloadHref (s : SessionState) : List Char :=
  "data:text/html;base64,".data ++ b64e (utf8Bytes (htmlDoc s))

/-- Bool test: does `s` start with `pat`? -/
def startsWithSeg : List Char → List Char → Bool
  | [], _ => true
  | _ :: _, [] => false
  | p :: ps, c :: cs => c = p && startsWithSeg ps cs

/-- Bool test: does `pat` occur as a contiguous substring of the text? -/
def containsSub (pat : List Char) : List Char → Bool
  | [] => startsWithSeg pat []
  | c :: rest => startsWithSeg pat (c :: rest) || containsSub pat rest

/-- The sample state with the column guides switched off. -/
def sampleStateNoGuides : SessionState := { sampleState with show_guides := false }

lemma md_js_eq_escL (md : String) : md_js md = escL md.data := rfl

lemma replaceChar_append (pat : Char) (rep a b : List Char) :
    replaceChar pat rep (a ++ b) = replaceChar pat rep a ++ replaceChar pat rep b := by
  induction a with
  | nil => simp [replaceChar]
  | cons c cs ih => simp [replaceChar, ih]

lemma escL_cons (c : Char) (l : List Char) : escL (c :: l) = escL [c] ++ escL l := by
  have h : (c :: l) = [c] ++ l := rfl
  rw [escL, h, replaceChar_append, replaceChar_append, replaceChar_append]
  rfl

lemma escL_singleton_scan (c : Char) (X : List Char) :
    templateScan (escL [c] ++ X) = templateScan X ∧
    templLitEnd (escL [c] ++ X) = templLitEnd X := by
  by_cases h1 : c = '\\'
  · subst h1
    have e : escL ['\\'] = ['\\', '\\', '\\', '\\'] := rfl
    rw [e]
    constructor <;> simp [templateScan, templLitEnd]
  · by_cases h2 : c = bq
    · subst h2
      have e : escL [bq] = ['\\', bq] := by
        simp [escL, replaceChar, bq]
      rw [e]
      constructor <;> simp [templateScan, templLitEnd]
    · by_cases h3 : c = '$'
      · subst h3
        have e : escL ['$'] = ['\\', '$'] := by
          simp [escL, replaceChar, bq]
        rw [e]
        constructor <;> simp [templateScan, templLitEnd]
      · have e : escL [c] = [c] := by
          simp [escL, replaceChar, h1, h2, h3]
        rw [e]
        cases X with
        | nil => constructor <;> simp [templateScan, templLitEnd, h1, h2, h3]
        | cons d rest => constructor <;> simp [templateScan, templLitEnd, h1, h2, h3]

lemma escL_scan (l : List Char) : templateScan (escL l) = true := by
  induction l with
  | nil => rfl
  | cons c cs ih =>
    rw [escL_cons, (escL_singleton_scan c (escL cs)).1, ih]

lemma escL_end (l tail : List Char) : templLitEnd (escL l ++ bq :: tail) = some tail := by
  induction l with
  | nil =>
    show templLitEnd (bq :: tail) = some tail
    cases tail with
    | nil => simp [templLitEnd]
    | cons d rest =>
      simp [templLitEnd, if_neg (by decide : ¬ bq = '\\')]
  | cons c cs ih =>
    rw [escL_cons, List.append_assoc, (escL_singleton_scan c _).2, ih]

/-- C1: for every document text containing a backtick, a backslash and a dollar
sign, the escaping step `md_js` yields text that embeds safely between the
backticks of the generated `const raw = ...` template literal: the scan of the
embedded region never terminates prematurely, and the literal is closed exactly
by the intended closing backtick (what follows it is exactly the script tail
`hdS11` of the assembled document). -/
theorem c1_escape_wellformed (md : String)
    (h1 : '\\' ∈ md.data) (h2 : bq ∈ md.data) (h3 : '$' ∈ md.data) :
    templateScan (md_js md) = true ∧
    templLitEnd (md_js md ++ bq :: hdS11.data) = some hdS11.data :=
  ⟨escL_scan md.data, escL_end md.data hdS11.data⟩

/-- Witness for `c1_escape_wellformed` at the concrete text consisting of a
backslash, a backtick and a dollar sign. -/
theorem c1_escape_wellformed_witness :
    ('\\' ∈ "\\`$".data ∧ bq ∈ "\\`$".data ∧ '$' ∈ "\\`$".data) ∧
    (templateScan (md_js "\\`$") = true ∧
     templLitEnd (md_js "\\`$" ++ bq :: hdS11.data) = some hdS11.data) :=
  ⟨by decide, c1_escape_wellformed "\\`$" (by decide) (by decide) (by decide)⟩

/-- C3: the assembler selects the physical page dimensions between the two
fixed A4 dimensions according to orientation: portrait is 210mm by 297mm and
landscape is 297mm by 210mm. -/
theorem c3_page_dimensions :
    page_w "portrait" = 210 ∧ page_h "portrait" = 297 ∧
    page_w "landscape" = 297 ∧ page_h "landscape" = 210 := by
  refine ⟨?_, ?_, ?_, ?_⟩ <;> decide

/-- C4: applying the named presets bulk-sets the layout fields: 2-up sets
columns=2, margin=12, gap=10, font=11, guides=true; 3-up sets columns=3,
margin=12, gap=8, font=10, guides=true; 4-up sets columns=4, margin=10, gap=6,
font=10, guides=true (for every prior state). -/
theorem c4_presets (s : SessionState) :
    (PRESETS "2-up").map (fun p => applyPreset p s) =
      some { s with columns := 2, margin_mm := 12, gap_mm := 10, font_px := 11, show_guides := true } ∧
    (PRESETS "3-up").map (fun p => applyPreset p s) =
      some { s with columns := 3, margin_mm := 12, gap_mm := 8, font_px := 10, show_guides := true } ∧
    (PRESETS "4-up").map (fun p => applyPreset p s) =
      some { s with columns := 4, margin_mm := 10, gap_mm := 6, font_px := 10, show_guides := true } := by
  refine ⟨?_, ?_, ?_⟩ <;> rfl

/-- C5: the load-append action sets the document text to the prior text
followed by the selected template's full text, with no truncation of either
part (the result is the exact concatenation and its length is the sum of the
lengths). -/
theorem c5_load_append (s : SessionState) :
    loadStep false true s = { s with md := s.md ++ TEMPLATES s.selected_template } ∧
    (loadStep false true s).md.length = s.md.length + (TEMPLATES s.selected_template).length := by
  constructor
  · simp [loadStep]
  · simp [loadStep]

/-- C6: the load-replace action with template Blank selected sets the document
text to the empty string, for every prior state. -/
theorem c6_load_replace_blank (s : SessionState)
    (h : s.selected_template = TemplateName.blank) (b : Bool) :
    (loadStep true b s).md = "" := by
  simp [loadStep, h, TEMPLATES]

/-- Witness for `c6_load_replace_blank` at the sample state with template Blank
selected. -/
theorem c6_load_replace_blank_witness :
    ({ sampleState with selected_template := TemplateName.blank } : SessionState).selected_template
        = TemplateName.blank ∧
    (loadStep true true { sampleState with selected_template := TemplateName.blank }).md = "" :=
  ⟨rfl, c6_load_replace_blank _ rfl true⟩

/-- C7: every mutation of the Layout Configuration preserves the invariants
columns in [1,4], margin in [5,25], gap in [4,20], font in [9,16]: an
individual field update with any value the bounded control can produce keeps
the state valid, and so does applying any of the three presets. -/
theorem c7_invariants (s : SessionState) (c m g f : Nat) (hs : ValidLayout s)
    (hc1 : 1 ≤ c) (hc2 : c ≤ 4) (hm1 : 5 ≤ m) (hm2 : m ≤ 25)
    (hg1 : 4 ≤ g) (hg2 : g ≤ 20) (hf1 : 9 ≤ f) (hf2 : f ≤ 16) :
    ValidLayout (setColumns s c) ∧ ValidLayout (setMargin s m) ∧
    ValidLayout (setGap s g) ∧ ValidLayout (setFont s f) ∧
    ValidLayout (applyPreset preset2up s) ∧ ValidLayout (applyPreset preset3up s) ∧
    ValidLayout (applyPreset preset4up s) := by
  obtain ⟨a1, a2, a3, a4, a5, a6, a7, a8⟩ := hs
  refine ⟨⟨hc1, hc2, a3, a4, a5, a6, a7, a8⟩,
         ⟨a1, a2, hm1, hm2, a5, a6, a7, a8⟩,
         ⟨a1, a2, a3, a4, hg1, hg2, a7, a8⟩,
         ⟨a1, a2, a3, a4, a5, a6, hf1, hf2⟩, ?_, ?_, ?_⟩ <;>
    · simp only [ValidLayout, applyPreset, preset2up, preset3up, preset4up]
      omega

/-- Witness for `c7_invariants` at the sample state and in-range slider
values. -/
theorem c7_invariants_witness :
    ValidLayout (setColumns sampleState 3) ∧ ValidLayout (setMargin sampleState 10) ∧
    ValidLayout (setGap sampleState 10) ∧ ValidLayout (setFont sampleState 12) ∧
    ValidLayout (applyPreset preset2up sampleState) ∧
    ValidLayout (applyPreset preset3up sampleState) ∧
    ValidLayout (applyPreset preset4up sampleState) :=
  c7_invariants sampleState 3 10 10 12
    (by simp [ValidLayout, sampleState]) (by decide) (by decide) (by decide)
    (by decide) (by decide) (by decide) (by decide) (by decide)

lemma parse_stop (rest : List Char) (acc : Nat) (h : headNotDigit rest = true) :
    parseNatAux rest acc = (acc, rest) := by
  cases rest with
  | nil => rfl
  | cons c cs =>
    simp only [headNotDigit, Bool.not_eq_true'] at h
    simp [parseNatAux, h]

lemma digitChar_isDigit (d : Nat) (h : d < 10) :
    isDigitC (digitChar d) = true ∧ (digitChar d).toNat - 48 = d := by
  interval_cases d <;> exact ⟨by decide, by decide⟩

lemma natToStrAux_parse :
    ∀ (fuel n : Nat), n < fuel → ∀ (rest : List Char) (acc : Nat),
      parseNatAux (natToStrAux fuel n ++ rest) acc =
        parseNatAux rest (acc * 10 ^ (natToStrAux fuel n).length + n) := by
  intro fuel
  induction fuel with
  | zero => intro n h; omega
  | succ fuel ih =>
    intro n hn rest acc
    by_cases h10 : n < 10
    · obtain ⟨hd1, hd2⟩ := digitChar_isDigit n h10
      simp only [natToStrAux, if_pos h10, List.cons_append, List.nil_append,
        List.length_cons, List.length_nil]
      simp [parseNatAux, hd1, hd2]
    · obtain ⟨hd1, hd2⟩ := digitChar_isDigit (n % 10) (by omega)
      simp only [natToStrAux, if_neg h10]
      rw [List.append_assoc]
      rw [ih (n / 10) (by omega)]
      simp only [List.cons_append, List.nil_append]
      simp only [parseNatAux, hd1, if_pos, hd2]
      rw [List.length_append]
      congr 1
      simp only [List.length_cons, List.length_nil]
      rw [pow_succ, ← Nat.mul_assoc]
      generalize acc * 10 ^ (natToStrAux fuel (n / 10)).length = z
      omega

lemma natToStr_parse (n : Nat) (rest : List Char) (h : headNotDigit rest = true) :
    parseNatAux (natToStr n ++ rest) 0 = (n, rest) := by
  unfold natToStr
  rw [natToStrAux_parse (n + 1) n (by omega), parse_stop rest _ h]
  simp

lemma dropPre_self : ∀ (p rest : List Char), dropPre p (p ++ rest) = some rest := by
  intro p
  induction p with
  | nil => intro rest; rfl
  | cons c cs ih => intro rest; simp [dropPre, ih]

lemma headNotDigit_append (a X : List Char) (ha : a ≠ []) (h : headNotDigit a = true) :
    headNotDigit (a ++ X) = true := by
  cases a with
  | nil => exact absurd rfl ha
  | cons c cs => simpa [headNotDigit] using h

lemma parseSeg1 (n : Nat) (X : List Char) :
    parseNatAux (natToStr n ++ (hdS1.data ++ X)) 0 = (n, hdS1.data ++ X) :=
  natToStr_parse _ _ (headNotDigit_append _ _ (by decide) (by decide))

lemma parseSeg2 (n : Nat) (X : List Char) :
    parseNatAux (natToStr n ++ (hdS2.data ++ X)) 0 = (n, hdS2.data ++ X) :=
  natToStr_parse _ _ (headNotDigit_append _ _ (by decide) (by decide))

lemma parseSeg3 (n : Nat) (X : List Char) :
    parseNatAux (natToStr n ++ (hdS3.data ++ X)) 0 = (n, hdS3.data ++ X) :=
  natToStr_parse _ _ (headNotDigit_append _ _ (by decide) (by decide))

lemma parseSeg4 (n : Nat) (X : List Char) :
    parseNatAux (natToStr n ++ (hdS4.data ++ X)) 0 = (n, hdS4.data ++ X) :=
  natToStr_parse _ _ (headNotDigit_append _ _ (by decide) (by decide))

lemma parseSeg5 (n : Nat) (X : List Char) :
    parseNatAux (natToStr n ++ (hdS5.data ++ X)) 0 = (n, hdS5.data ++ X) :=
  natToStr_parse _ _ (headNotDigit_append _ _ (by decide) (by decide))

lemma parseSeg6 (n : Nat) (X : List Char) :
    parseNatAux (natToStr n ++ (hdS6.data ++ X)) 0 = (n, hdS6.data ++ X) :=
  natToStr_parse _ _ (headNotDigit_append _ _ (by decide) (by decide))

/-- C2: for every valid configuration, the six style values embedded in the
assembled document (the CSS custom properties for page width, page height,
margin, gap, font size and column count) are exactly the configuration's
values: extracting them back out of the document string recovers the
configuration (round-trip). -/
theorem c2_style_roundtrip (s : SessionState) (h : ValidLayout s) :
    readStyleVars (htmlDoc s) =
      some (page_w s.orientation, page_h s.orientation,
            s.margin_mm, s.gap_mm, s.font_px, s.columns) := by
  simp only [readStyleVars, htmlDoc, List.append_assoc, dropPre_self,
    parseSeg1, parseSeg2, parseSeg3, parseSeg4, parseSeg5, parseSeg6]

/-- Witness for `c2_style_roundtrip` at the sample configuration. -/
theorem c2_style_roundtrip_witness :
    ValidLayout sampleState ∧
    readStyleVars (htmlDoc sampleState) = some (210, 297, 12, 8, 11, 2) :=
  ⟨by simp [ValidLayout, sampleState],
   c2_style_roundtrip sampleState (by simp [ValidLayout, sampleState])⟩

/-- C10: the template-loading step modifies only the document text: for every
state and any combination of the two button signals, orientation, columns,
margin, gap, font, guide visibility and the selected template are unchanged;
and when both buttons are signalled, load-replace takes precedence (the result
equals the pure replace result, not the append). -/
theorem c10_load_frame (s : SessionState) (r a : Bool) :
    loadStep true a s = { s with md := TEMPLATES s.selected_template } ∧
    loadStep false true s = { s with md := s.md ++ TEMPLATES s.selected_template } ∧
    (loadStep r a s).orientation = s.orientation ∧
    (loadStep r a s).columns = s.columns ∧
    (loadStep r a s).margin_mm = s.margin_mm ∧
    (loadStep r a s).gap_mm = s.gap_mm ∧
    (loadStep r a s).font_px = s.font_px ∧
    (loadStep r a s).show_guides = s.show_guides ∧
    (loadStep r a s).selected_template = s.selected_template := by
  cases r <;> cases a <;> simp [loadStep]

lemma contains_append_left (pat A X : List Char) (h : containsSub pat X = true) :
    containsSub pat (A ++ X) = true := by
  induction A with
  | nil => simpa using h
  | cons c cs ih => simp [containsSub, ih, Bool.or_true]

lemma startsWith_refl_append : ∀ (pat B : List Char), startsWithSeg pat (pat ++ B) = true := by
  intro pat
  induction pat with
  | nil => intro B; rfl
  | cons c cs ih => intro B; simp [startsWithSeg, ih]

lemma contains_here (pat B : List Char) : containsSub pat (pat ++ B) = true := by
  cases pat with
  | nil =>
    induction B with
    | nil => rfl
    | cons c cs ih => simp [containsSub, startsWithSeg]
  | cons p ps =>
    have h := startsWith_refl_append (p :: ps) B
    simp only [List.cons_append] at h
    simp [containsSub, h]

lemma contains_triple_chain (x y z B : List Char) :
    containsSub (x ++ (y ++ z)) (x ++ (y ++ (z ++ B))) = true := by
  have h := contains_here (x ++ (y ++ z)) B
  simpa [List.append_assoc] using h

lemma hdS0_split_pw : hdS0.data = hdS0.data.take 745 ++ "--page-w-mm: ".data := by
  have h : hdS0.data.drop 745 = "--page-w-mm: ".data := by decide
  rw [← h, List.take_append_drop]

lemma hdS1_split_mm : hdS1.data = "mm;".data ++ hdS1.data.drop 3 := by
  have h : hdS1.data.take 3 = "mm;".data := by decide
  rw [← h, List.take_append_drop]

lemma hdS1_split_ph : hdS1.data = hdS1.data.take 10 ++ "--page-h-mm: ".data := by
  have h : hdS1.data.drop 10 = "--page-h-mm: ".data := by decide
  rw [← h, List.take_append_drop]

lemma hdS2_split_mm : hdS2.data = "mm;".data ++ hdS2.data.drop 3 := by
  have h : hdS2.data.take 3 = "mm;".data := by decide
  rw [← h, List.take_append_drop]

lemma hdS2_split_margin : hdS2.data = hdS2.data.take 10 ++ "--margin-mm: ".data := by
  have h : hdS2.data.drop 10 = "--margin-mm: ".data := by decide
  rw [← h, List.take_append_drop]

lemma hdS3_split_mm : hdS3.data = "mm;".data ++ hdS3.data.drop 3 := by
  have h : hdS3.data.take 3 = "mm;".data := by decide
  rw [← h, List.take_append_drop]

lemma hdS3_split_gap : hdS3.data = hdS3.data.take 10 ++ "--gap-mm: ".data := by
  have h : hdS3.data.drop 10 = "--gap-mm: ".data := by decide
  rw [← h, List.take_append_drop]

lemma hdS4_split_mm : hdS4.data = "mm;".data ++ hdS4.data.drop 3 := by
  have h : hdS4.data.take 3 = "mm;".data := by decide
  rw [← h, List.take_append_drop]

lemma hdS4_split_font : hdS4.data = hdS4.data.take 10 ++ "--font-px: ".data := by
  have h : hdS4.data.drop 10 = "--font-px: ".data := by decide
  rw [← h, List.take_append_drop]

lemma hdS5_split_px : hdS5.data = "px;".data ++ hdS5.data.drop 3 := by
  have h : hdS5.data.take 3 = "px;".data := by decide
  rw [← h, List.take_append_drop]

lemma hdS5_split_cols : hdS5.data = hdS5.data.take 10 ++ "--cols: ".data := by
  have h : hdS5.data.drop 10 = "--cols: ".data := by decide
  rw [← h, List.take_append_drop]

lemma hdS6_split_semi : hdS6.data = ";".data ++ hdS6.data.drop 1 := by
  have h : hdS6.data.take 1 = ";".data := by decide
  rw [← h, List.take_append_drop]

/-- C9 (amended): for every configuration, the assembled document's emitted
style contains the CSS custom properties for page width, page height, margin,
gap, font size and column count with the configuration's values, plus the
`column-rule` declaration toggled by show-guides (`1px solid #ddd` when guides
are shown, `none` when not); the claim's wording "page-break rule" does not
match the code, which toggles the column guide rule and emits its
`break-inside` declarations unconditionally. -/
theorem c9_style_emission (s : SessionState) :
    containsSub ("--page-w-mm: ".data ++ natToStr (page_w s.orientation) ++ "mm;".data) (htmlDoc s) = true ∧
    containsSub ("--page-h-mm: ".data ++ natToStr (page_h s.orientation) ++ "mm;".data) (htmlDoc s) = true ∧
    containsSub ("--margin-mm: ".data ++ natToStr s.margin_mm ++ "mm;".data) (htmlDoc s) = true ∧
    containsSub ("--gap-mm: ".data ++ natToStr s.gap_mm ++ "mm;".data) (htmlDoc s) = true ∧
    containsSub ("--font-px: ".data ++ natToStr s.font_px ++ "px;".data) (htmlDoc s) = true ∧
    containsSub ("--cols: ".data ++ natToStr s.columns ++ ";".data) (htmlDoc s) = true ∧
    containsSub (rule_css s.show_guides) (htmlDoc s) = true ∧
    rule_css true = "column-rule: 1px solid #ddd;".data ∧
    rule_css false = "column-rule: none;".data := by
  refine ⟨?_, ?_, ?_, ?_, ?_, ?_, ?_, rfl, rfl⟩
  · rw [htmlDoc, hdS0_split_pw, hdS1_split_mm]
    simp only [List.append_assoc]
    iterate 1 apply contains_append_left
    exact contains_triple_chain _ _ _ _
  · rw [htmlDoc, hdS1_split_ph, hdS2_split_mm]
    simp only [List.append_assoc]
    iterate 3 apply contains_append_left
    exact contains_triple_chain _ _ _ _
  · rw [htmlDoc, hdS2_split_margin, hdS3_split_mm]
    simp only [List.append_assoc]
    iterate 5 apply contains_append_left
    exact contains_triple_chain _ _ _ _
  · rw [htmlDoc, hdS3_split_gap, hdS4_split_mm]
    simp only [List.append_assoc]
    iterate 7 apply contains_append_left
    exact contains_triple_chain _ _ _ _
  · rw [htmlDoc, hdS4_split_font, hdS5_split_px]
    simp only [List.append_assoc]
    iterate 9 apply contains_append_left
    exact contains_triple_chain _ _ _ _
  · rw [htmlDoc, hdS5_split_cols, hdS6_split_semi]
    simp only [List.append_assoc]
    iterate 11 apply contains_append_left
    exact contains_triple_chain _ _ _ _
  · rw [htmlDoc]
    simp only [List.append_assoc]
    iterate 15 apply contains_append_left
    exact contains_here _ _

/-- C9 counterexample to the claim as stated: the assembled document contains
no `page-break` declaration at all (with guides on or off at the sample
configuration), and the break-control declarations it does contain
(`break-inside: avoid;`) appear identically whether show-guides is true or
false — so no page-break rule is toggled by the show-guides flag; the toggled
declaration is the `column-rule`. -/
theorem c9_page_break_counterexample :
    containsSub "page-break".data (htmlDoc sampleState) = false ∧
    containsSub "page-break".data (htmlDoc sampleStateNoGuides) = false ∧
    containsSub "break-inside: avoid;".data (htmlDoc sampleState) = true ∧
    containsSub "break-inside: avoid;".data (htmlDoc sampleStateNoGuides) = true := by
  refine ⟨?_, ?_, ?_, ?_⟩ <;> decide

lemma b64_tbl : ∀ x : Fin 64, b64val (b64char x.val) = x.val ∧ b64char x.val ≠ '=' := by
  decide

lemma b64val_inv {x : Nat} (h : x < 64) : b64val (b64char x) = x :=
  (b64_tbl ⟨x, h⟩).1

lemma b64char_ne_pad {x : Nat} (h : x < 64) : b64char x ≠ '=' :=
  (b64_tbl ⟨x, h⟩).2

lemma b64_roundtrip : ∀ (bs : List Nat), (∀ b ∈ bs, b < 256) → b64d (b64e bs) = bs := by
  intro bs
  induction bs using b64e.induct with
  | case1 =>
    intro _
    rfl
  | case2 a =>
    intro h
    have ha : a < 256 := h a (by simp)
    simp only [b64e, b64d]
    rw [if_pos trivial]
    rw [b64val_inv (by omega), b64val_inv (by omega)]
    simp only [List.cons.injEq, and_true]
    omega
  | case3 a b =>
    intro h
    have ha : a < 256 := h a (by simp)
    have hb : b < 256 := h b (by simp)
    simp only [b64e, b64d]
    rw [if_neg (b64char_ne_pad (by omega : b % 16 * 4 < 64)), if_pos trivial]
    rw [b64val_inv (by omega), b64val_inv (by omega), b64val_inv (by omega)]
    simp only [List.cons.injEq, and_true]
    omega
  | case4 a b c rest ih =>
    intro h
    have ha : a < 256 := h a (by simp)
    have hb : b < 256 := h b (by simp)
    have hc : c < 256 := h c (by simp)
    have hrest : ∀ x ∈ rest, x < 256 := fun x hx => h x (by simp [hx])
    simp only [b64e, b64d]
    rw [if_neg (b64char_ne_pad (by omega : b % 16 * 4 + c / 64 < 64)),
      if_neg (b64char_ne_pad (by omega : c % 64 < 64))]
    rw [b64val_inv (by omega), b64val_inv (by omega), b64val_inv (by omega),
      b64val_inv (by omega), ih hrest]
    simp only [List.cons.injEq, eq_self_iff_true, and_true]
    omega

lemma char_toNat_lt (c : Char) : c.toNat < 1114112 := by
  have h := c.valid
  rcases h with h | ⟨_, h2⟩
  · exact Nat.lt_trans h (by norm_num)
  · exact h2

lemma utf8EncodeChar_lt (c : Char) : ∀ b ∈ utf8EncodeChar c, b < 256 := by
  have hc : c.toNat < 1114112 := char_toNat_lt c
  unfold utf8EncodeChar
  split_ifs with h1 h2 h3 <;> intro b hb <;> simp at hb <;> omega

lemma utf8Bytes_lt : ∀ (l : List Char), ∀ b ∈ utf8Bytes l, b < 256 := by
  intro l
  induction l with
  | nil => intro b hb; simp [utf8Bytes] at hb
  | cons c cs ih =>
    intro b hb
    simp only [utf8Bytes, List.mem_append] at hb
    rcases hb with hb | hb
    · exact utf8EncodeChar_lt c b hb
    · exact ih b hb

/-- C8: the download action exposes the assembled document as a link whose
target carries the `text/html` media type and a base64 payload; stripping the
`data:text/html;base64,` prefix and base64-decoding the payload yields exactly
the UTF-8 bytes of the assembled document (encode-then-decode round-trip). -/
theorem c8_download_roundtrip (s : SessionState) :
    dropPre "data:text/html;base64,".data (downloadHref s) =
      some (b64e (utf8Bytes (htmlDoc s))) ∧
    b64d (b64e (utf8Bytes (htmlDoc s))) = utf8Bytes (htmlDoc s) :=
  ⟨dropPre_self _ _, b64_roundtrip _ (utf8Bytes_lt _)⟩

end A4
